import Mathlib

/- Shallow embedding of the keyframe-timeline animation engine of the
kiforge symbol-generator video repository.  Frames are integers, pixel and
opacity values are exact rationals; the line-rectangle intersection helper,
whose source uses trigonometry, is embedded over the reals.  Namespaces:
`Comp` embeds src/Composition.tsx, `V1` the first composition variant of
the unnamed source file part_000, `V2` its second (text suck-in) variant,
`V3` the variant in part_001, and `ColorsTs` embeds src/colors.ts. -/

/-- Visual state returned by the entrance-animation helpers: a vertical
pixel offset and an opacity. -/
structure Anim where
  yOffset : ℚ
  opacity : ℚ
deriving DecidableEq

/-- Visual state returned by the text suck-in helper: x/y pixel offsets,
opacity and scale. -/
structure SuckAnim where
  xOffset : ℚ
  yOffset : ℚ
  opacity : ℚ
  scale : ℚ
deriving DecidableEq

/-- An RGB triple with integer channels. -/
structure Rgb where
  r : ℤ
  g : ℤ
  b : ℤ
deriving DecidableEq

/-- An RGB triple whose channels may be NaN (the result of a failing
JavaScript parseInt), modelled as `none`. -/
structure RgbJs where
  r : Option ℤ
  g : Option ℤ
  b : Option ℤ
deriving DecidableEq

namespace Remotion

/-- Clamping step of remotion's `interpolate`: the raw progress is pinned
to 0 on the left when `extrapolateLeft` is clamp and to 1 on the right when
`extrapolateRight` is clamp. -/
def clampProgress (p : ℚ) (cl cr : Bool) : ℚ :=
  let pl := if cl then (if p < 0 then 0 else p) else p
  if cr then (if 1 < pl then 1 else pl) else pl

/-- Two-point remotion `interpolate`: maps `x` from the input range
`[i0, i1]` to the output range `[o0, o1]` linearly, with per-side clamping
flags (`false` = extend, the library default). -/
def interpolate (x i0 i1 o0 o1 : ℚ) (cl cr : Bool) : ℚ :=
  o0 + (o1 - o0) * clampProgress ((x - i0) / (i1 - i0)) cl cr

namespace Easing

/-- remotion `Easing.cubic`. -/
def cubic (t : ℚ) : ℚ := t * t * t

/-- remotion `Easing.quad`. -/
def quad (t : ℚ) : ℚ := t * t

/-- remotion `Easing.out`: runs an easing function backwards. -/
def out (f : ℚ → ℚ) (t : ℚ) : ℚ := 1 - f (1 - t)

/-- remotion `Easing.in`: runs an easing function forwards (identity
wrapper); named `easeIn` because `in` is a Lean keyword. -/
def easeIn (f : ℚ → ℚ) (t : ℚ) : ℚ := f t

end Easing

end Remotion

/-- Descending scan shared by the source's `getWordletIndex`-style loops:
returns the largest index `i` at or below the start bound whose boundary
entry is at most `letterIndex`, defaulting to 0. -/
def wordletIndexAux (bs : List ℕ) (letterIndex : ℕ) : ℕ → ℕ
  | 0 => 0
  | i + 1 => if bs.getD (i + 1) 0 ≤ letterIndex then i + 1 else wordletIndexAux bs letterIndex i

/-- Value of a hexadecimal digit character, `none` when the character is
not a hex digit (the character class `[a-f\d]` of the source regex, plus
upper case for the case-insensitive flag and for parseInt). -/
def hexDigitVal? (c : Char) : Option ℕ :=
  if '0' ≤ c ∧ c ≤ '9' then some (c.toNat - '0'.toNat)
  else if 'a' ≤ c ∧ c ≤ 'f' then some (c.toNat - 'a'.toNat + 10)
  else if 'A' ≤ c ∧ c ≤ 'F' then some (c.toNat - 'A'.toNat + 10)
  else none

namespace Comp

/- Timing constants of src/Composition.tsx (frames). -/

def BLANK_DURATION : ℤ := 10
def FIRST_WORD_APPEAR : ℤ := BLANK_DURATION
def WORD_STAGGER : ℤ := 3
def EASE_DURATION : ℤ := 5
def WORD_START_OFFSET : ℚ := 25
def LAST_WORDLET_INDEX : ℤ := 8
def WORDLETS_DONE_FRAME : ℤ := FIRST_WORD_APPEAR + LAST_WORDLET_INDEX * WORD_STAGGER + EASE_DURATION
def SYMBOL_FRAME_DELAY : ℤ := 0
def SYMBOL_FRAME_START : ℤ := WORDLETS_DONE_FRAME + SYMBOL_FRAME_DELAY
def SYMBOL_FRAME_EASE_DURATION : ℤ := 5
def SYMBOL_FRAME_START_OFFSET : ℚ := 400
def SYMBOL_LINE_STAGGER : ℤ := 1
def SYMBOL_FRAME_DONE : ℤ := SYMBOL_FRAME_START + 5 * SYMBOL_LINE_STAGGER + SYMBOL_FRAME_EASE_DURATION
def GRID_APPEAR_START : ℤ := SYMBOL_FRAME_DONE - 3
def GRID_APPEAR_DURATION : ℤ := 15
def GRID_ROTATE_DELAY : ℤ := 0
def GRID_ROTATE_START : ℤ := GRID_APPEAR_START + GRID_APPEAR_DURATION + GRID_ROTATE_DELAY
def FRAME_GROW_DELAY_FROM_GRID_ROTATE : ℤ := 10
def FRAME_GROW_START : ℤ := GRID_ROTATE_START + FRAME_GROW_DELAY_FROM_GRID_ROTATE
def FRAME_GROW_TARGET_HEIGHT : ℚ := 320

/-- `SYMBOL_FRAME.height` of src/Composition.tsx. -/
def SYMBOL_FRAME_HEIGHT : ℚ := 240

/-- `OPENING_WORDLET_BOUNDARIES`: start letter index of each wordlet. -/
def OPENING_WORDLET_BOUNDARIES : List ℕ := [0, 5, 10, 13, 17, 21, 24, 27, 29, 30]

/-- `getOpeningWordletIndex`: wordlet index of a letter (descending scan). -/
def getOpeningWordletIndex (letterIndex : ℕ) : ℕ :=
  wordletIndexAux OPENING_WORDLET_BOUNDARIES letterIndex (OPENING_WORDLET_BOUNDARIES.length - 1)

/-- `getOpeningWordletAppearFrame`. -/
def getOpeningWordletAppearFrame (wordletIndex : ℕ) : ℤ :=
  FIRST_WORD_APPEAR + (wordletIndex : ℤ) * WORD_STAGGER

/-- The `appearFrame` computed at the top of `getOpeningLetterAnimation`. -/
def openingLetterAppearFrame (letterIndex : ℕ) : ℤ :=
  getOpeningWordletAppearFrame (getOpeningWordletIndex letterIndex)

/-- `getOpeningLetterAnimation` of src/Composition.tsx lines 210-239. -/
def getOpeningLetterAnimation (frame : ℤ) (letterIndex : ℕ) : Anim :=
  if frame < openingLetterAppearFrame letterIndex then ⟨WORD_START_OFFSET, 0⟩
  else if EASE_DURATION ≤ frame - openingLetterAppearFrame letterIndex then ⟨0, 1⟩
  else
    ⟨WORD_START_OFFSET *
        (1 - Remotion.Easing.out Remotion.Easing.cubic
          (Remotion.interpolate ((frame - openingLetterAppearFrame letterIndex : ℤ) : ℚ) 0
            (EASE_DURATION : ℚ) 0 1 false true)),
      1⟩

/-- The `appearFrame` computed at the top of `getSymbolLineAnimation`. -/
def symbolLineAppearFrame (lineIndex : ℕ) : ℤ :=
  SYMBOL_FRAME_START + (lineIndex : ℤ) * SYMBOL_LINE_STAGGER

/-- `getSymbolLineAnimation` of src/Composition.tsx lines 282-314.  The
cubic-bezier whizz easing `Easing.bezier(0.22, 1, 0.36, 1)` is part of the
external remotion easing library, so it is taken as a parameter `bez`. -/
def getSymbolLineAnimation (bez : ℚ → ℚ) (frame : ℤ) (lineIndex : ℕ) : Anim :=
  if frame < symbolLineAppearFrame lineIndex then ⟨SYMBOL_FRAME_START_OFFSET, 0⟩
  else if SYMBOL_FRAME_EASE_DURATION ≤ frame - symbolLineAppearFrame lineIndex then ⟨0, 1⟩
  else
    ⟨SYMBOL_FRAME_START_OFFSET *
        (1 - bez
          (Remotion.interpolate ((frame - symbolLineAppearFrame lineIndex : ℤ) : ℚ) 0
            (SYMBOL_FRAME_EASE_DURATION : ℚ) 0 1 false true)),
      1⟩

/-- The `height` computation of the `SymbolFrame` component
(src/Composition.tsx lines 756-781): before `FRAME_GROW_START` the base
height, afterwards the spring progress mapped onto `[240, 320]`.  The
spring evaluator lives in the external remotion library, so the spring
value as a function of elapsed frames is a parameter. -/
def symbolFrameHeight (springVal : ℤ → ℚ) (frame : ℤ) : ℚ :=
  if frame < FRAME_GROW_START then SYMBOL_FRAME_HEIGHT
  else
    Remotion.interpolate (springVal (frame - FRAME_GROW_START)) 0 1 SYMBOL_FRAME_HEIGHT
      FRAME_GROW_TARGET_HEIGHT false false

end Comp

namespace V1

/- Constants of the first composition variant in part_000 (lines 6-47). -/

def BLANK_DURATION : ℤ := 10
def FIRST_WORD_APPEAR : ℤ := BLANK_DURATION
def WORD_STAGGER : ℤ := 3
def EASE_DURATION : ℤ := 5
def WORD_START_OFFSET : ℚ := 25

def WORDLET_BOUNDARIES : List ℕ := [0, 5, 10, 13, 17, 21, 24, 27, 29, 30]

/-- `getWordletIndex` of part_000 lines 42-47. -/
def getWordletIndex (letterIndex : ℕ) : ℕ :=
  wordletIndexAux WORDLET_BOUNDARIES letterIndex (WORDLET_BOUNDARIES.length - 1)

/-- `getWordletAppearFrame` of part_000 lines 79-80. -/
def getWordletAppearFrame (wordletIndex : ℕ) : ℤ :=
  FIRST_WORD_APPEAR + (wordletIndex : ℤ) * WORD_STAGGER

/-- The `appearFrame` computed inside `getLetterEntranceAnimation`. -/
def letterAppearFrame (letterIndex : ℕ) : ℤ :=
  getWordletAppearFrame (getWordletIndex letterIndex)

/-- `getLetterEntranceAnimation` of part_000 lines 83-112. -/
def getLetterEntranceAnimation (frame : ℤ) (letterIndex : ℕ) : Anim :=
  if frame < letterAppearFrame letterIndex then ⟨WORD_START_OFFSET, 0⟩
  else if EASE_DURATION ≤ frame - letterAppearFrame letterIndex then ⟨0, 1⟩
  else
    ⟨WORD_START_OFFSET *
        (1 - Remotion.Easing.out Remotion.Easing.cubic
          (Remotion.interpolate ((frame - letterAppearFrame letterIndex : ℤ) : ℚ) 0
            (EASE_DURATION : ℚ) 0 1 false true)),
      1⟩

end V1

namespace V2

/- Constants of the second (suck-in) composition variant in part_000
(lines 301-341). -/

def BLANK_DURATION : ℤ := 10
def FIRST_WORD_APPEAR : ℤ := BLANK_DURATION
def WORD_STAGGER : ℤ := 3
def EASE_DURATION : ℤ := 5
def WORD_START_OFFSET : ℚ := 25
def LAST_WORDLET_INDEX : ℤ := 8
def WORDLETS_DONE_FRAME : ℤ := FIRST_WORD_APPEAR + LAST_WORDLET_INDEX * WORD_STAGGER + EASE_DURATION
def SYMBOL_FRAME_DELAY : ℤ := 0
def SYMBOL_FRAME_START : ℤ := WORDLETS_DONE_FRAME + SYMBOL_FRAME_DELAY
def SYMBOL_FRAME_EASE_DURATION : ℤ := 5
def SYMBOL_FRAME_START_OFFSET : ℚ := 400
def SYMBOL_LINE_STAGGER : ℤ := 1
def SYMBOL_FRAME_DONE : ℤ := SYMBOL_FRAME_START + 5 * SYMBOL_LINE_STAGGER + SYMBOL_FRAME_EASE_DURATION
def SUCK_IN_DELAY : ℤ := 2
def SUCK_IN_START : ℤ := SYMBOL_FRAME_DONE + SUCK_IN_DELAY
def SUCK_IN_DURATION : ℤ := 12
def SUCK_IN_END : ℤ := SUCK_IN_START + SUCK_IN_DURATION

/-- `SUCK_IN_TARGETS` of part_000 lines 329-341: per-wordlet target offset
with the `?? [0, 0]` fallback of the call site folded in. -/
def SUCK_IN_TARGETS (wordletIndex : ℕ) : ℚ × ℚ :=
  match wordletIndex with
  | 0 => (120, -80)
  | 1 => (80, -80)
  | 2 => (0, -100)
  | 3 => (-60, -80)
  | 4 => (60, 80)
  | 5 => (-40, 100)
  | 6 => (-80, 100)
  | 7 => (-100, 100)
  | 8 => (-120, 80)
  | _ => (0, 0)

/-- `getWordletAppearFrame` of part_000 lines 389-390. -/
def getWordletAppearFrame (index : ℕ) : ℤ :=
  FIRST_WORD_APPEAR + (index : ℤ) * WORD_STAGGER

/-- `getWordletAnimation` of part_000 lines 393-425. -/
def getWordletAnimation (frame : ℤ) (index : ℕ) : Anim :=
  if frame < getWordletAppearFrame index then ⟨WORD_START_OFFSET, 0⟩
  else if EASE_DURATION ≤ frame - getWordletAppearFrame index then ⟨0, 1⟩
  else
    ⟨WORD_START_OFFSET *
        (1 - Remotion.Easing.out Remotion.Easing.cubic
          (Remotion.interpolate ((frame - getWordletAppearFrame index : ℤ) : ℚ) 0
            (EASE_DURATION : ℚ) 0 1 false true)),
      1⟩

/-- `getTextSuckInAnimation` of part_000 lines 479-511. -/
def getTextSuckInAnimation (frame : ℤ) (wordletIndex : ℕ) : SuckAnim :=
  if frame < SUCK_IN_START then ⟨0, 0, 1, 1⟩
  else if SUCK_IN_END ≤ frame then ⟨0, 0, 0, 0⟩
  else
    let eased := Remotion.Easing.easeIn Remotion.Easing.quad
      (Remotion.interpolate (frame : ℚ) (SUCK_IN_START : ℚ) (SUCK_IN_END : ℚ) 0 1 true true)
    ⟨(SUCK_IN_TARGETS wordletIndex).1 * eased, (SUCK_IN_TARGETS wordletIndex).2 * eased,
      1 - eased, 1 - eased * (0.6 : ℚ)⟩

/-- `textVisible` of the MyComposition render function of the suck-in
variant (part_000 line 602): wordlets are painted only before
`SUCK_IN_END`. -/
def textVisible (frame : ℤ) : Bool := decide (frame < SUCK_IN_END)

/-- Closed form of the eased suck-in progress while the window is active
(the `easedProgress` of the source on frames inside the window). -/
def suckEased (frame : ℤ) : ℚ :=
  Remotion.Easing.easeIn Remotion.Easing.quad
    (((frame : ℚ) - (SUCK_IN_START : ℚ)) / ((SUCK_IN_END : ℚ) - (SUCK_IN_START : ℚ)))

end V2

namespace V3

/-- The regex match of `hexToRgb` in part_001 line 122: an optional `#`,
then exactly six hex digits, captured pairwise. -/
def hexMatch (s : String) : Option (ℤ × ℤ × ℤ) :=
  let cs := match s.toList with
    | '#' :: rest => rest
    | cs => cs
  match cs with
  | [c1, c2, c3, c4, c5, c6] =>
    match hexDigitVal? c1, hexDigitVal? c2, hexDigitVal? c3, hexDigitVal? c4,
        hexDigitVal? c5, hexDigitVal? c6 with
    | some v1, some v2, some v3, some v4, some v5, some v6 =>
      some (16 * (v1 : ℤ) + (v2 : ℤ), 16 * (v3 : ℤ) + (v4 : ℤ), 16 * (v5 : ℤ) + (v6 : ℤ))
    | _, _, _, _, _, _ => none
  | _ => none

/-- `hexToRgb` of part_001 lines 121-129: white fallback when the regex
does not match. -/
def hexToRgb (hex : String) : Rgb :=
  match hexMatch hex with
  | none => ⟨255, 255, 255⟩
  | some (r, g, b) => ⟨r, g, b⟩

/-- JavaScript `Math.round`: halves round toward positive infinity. -/
def jsRound (x : ℚ) : ℤ := ⌊x + 1 / 2⌋

/-- Channel-level core of `interpolateColor` in part_001 lines 110-119:
each channel is `round(from + (to - from) * progress)`. -/
def interpolateColorRgb (f t : Rgb) (progress : ℚ) : Rgb :=
  ⟨jsRound ((f.r : ℚ) + ((t.r : ℚ) - (f.r : ℚ)) * progress),
    jsRound ((f.g : ℚ) + ((t.g : ℚ) - (f.g : ℚ)) * progress),
    jsRound ((f.b : ℚ) + ((t.b : ℚ) - (f.b : ℚ)) * progress)⟩

/-- `interpolateColor` of part_001: parses both hex strings and blends.
The source formats the result as an "rgb(r, g, b)" string; the string
formatting is rendering-surface concern and is left at the channel level. -/
def interpolateColor (f t : String) (progress : ℚ) : Rgb :=
  interpolateColorRgb (hexToRgb f) (hexToRgb t) progress

end V3

namespace ColorsTs

/-- JavaScript `hex.replace("#", "")`: removes only the first `#`. -/
def replaceFirstHash : List Char → List Char
  | [] => []
  | c :: cs => if c = '#' then cs else c :: replaceFirstHash cs

/-- Shorthand-hex expansion of src/colors.ts lines 19-25: each character
doubled. -/
def doubleChars : List Char → List Char
  | [] => []
  | c :: cs => c :: c :: doubleChars cs

/-- Accumulates the value of a maximal run of leading hex digits,
stopping at the first non-digit (parseInt semantics). -/
def hexDigitsValue (acc : ℕ) : List Char → ℕ
  | [] => acc
  | c :: cs =>
    match hexDigitVal? c with
    | some v => hexDigitsValue (16 * acc + v) cs
    | none => acc

/-- parseInt body after sign handling: an optional `0x`/`0X` prefix, then
a maximal run of hex digits; NaN (`none`) when no digit is consumed. -/
def parseUnsignedHex (cs : List Char) : Option ℕ :=
  let cs2 := match cs with
    | '0' :: x :: rest => if x = 'x' ∨ x = 'X' then rest else '0' :: x :: rest
    | other => other
  match cs2 with
  | [] => none
  | c :: rest =>
    match hexDigitVal? c with
    | some v => some (hexDigitsValue v rest)
    | none => none

/-- JavaScript `parseInt(s, 16)`: leading whitespace skipped, optional
sign, NaN modelled as `none`. -/
def jsParseInt16 (cs : List Char) : Option ℤ :=
  let cs2 := cs.dropWhile fun c => c == ' ' || c == '\t' || c == '\n' || c == '\r'
  match cs2 with
  | '-' :: rest => (parseUnsignedHex rest).map fun n => -(n : ℤ)
  | '+' :: rest => (parseUnsignedHex rest).map fun n => (n : ℤ)
  | rest => (parseUnsignedHex rest).map fun n => (n : ℤ)

/-- `hexToRgb` of src/colors.ts lines 14-32: strips a leading `#`, expands
3-character shorthand, then runs parseInt on the three 2-character
substrings.  There is no pattern check and no fallback value: a channel of
a malformed string is NaN (`none`). -/
def hexToRgb (hex : String) : RgbJs :=
  let cleanHex := replaceFirstHash hex.toList
  let fullHex := if cleanHex.length = 3 then doubleChars cleanHex else cleanHex
  ⟨jsParseInt16 (fullHex.take 2), jsParseInt16 ((fullHex.drop 2).take 2),
    jsParseInt16 ((fullHex.drop 4).take 2)⟩

end ColorsTs

/-- `getLineFrameIntersection` of src/Composition.tsx lines 371-399,
embedded with exact real trigonometry.  Candidate crossings with the right
edge and with the sign-selected top/bottom edge are kept when the crossing
point lies on the rectangle and the offset is positive; the smaller valid
candidate plus the 2px buffer is returned, else the fixed fallback 150. -/
noncomputable def getLineFrameIntersection (lineYPos angleDeg frameHalfW frameHalfH : ℝ) : ℝ :=
  let angleRad := angleDeg * Real.pi / 180
  let cosA := Real.cos angleRad
  let sinA := Real.sin angleRad
  let xRight := (frameHalfW + lineYPos * sinA) / cosA
  let yAtRight := xRight * sinA + lineYPos * cosA
  let yEdge := if 0 < lineYPos * cosA then frameHalfH else -frameHalfH
  let xTopBot := (yEdge - lineYPos * cosA) / sinA
  let xAtTopBot := xTopBot * cosA - lineYPos * sinA
  if |yAtRight| ≤ frameHalfH ∧ 0 < xRight then
    if |xAtTopBot| ≤ frameHalfW ∧ 0 < xTopBot then min xRight xTopBot + 2 else xRight + 2
  else if |xAtTopBot| ≤ frameHalfW ∧ 0 < xTopBot then xTopBot + 2
  else 150

/- ===================== Evaluation lemmas ===================== -/

/-- With only right-clamping, a progress at most 1 passes through. -/
lemma clampProgress_fr (p : ℚ) (h : ¬ 1 < p) : Remotion.clampProgress p false true = p := by
  unfold Remotion.clampProgress
  simp [h]

/-- With clamping on both sides, a progress inside `[0, 1]` passes through. -/
lemma clampProgress_tt (p : ℚ) (h0 : ¬ p < 0) (h1 : ¬ 1 < p) :
    Remotion.clampProgress p true true = p := by
  unfold Remotion.clampProgress
  simp [h0, h1]

/-- The entrance-animation use of `interpolate`: input range `[0, d]`,
output range `[0, 1]`, right clamp only, evaluated inside the range. -/
lemma interpolate_unit (x d : ℚ) (hd : 0 < d) (hx : x ≤ d) :
    Remotion.interpolate x 0 d 0 1 false true = x / d := by
  unfold Remotion.interpolate
  rw [clampProgress_fr _ (by rw [sub_zero, sub_zero, not_lt, div_le_one hd]; exact hx)]
  ring

/-- The suck-in use of `interpolate`: input range `[a, b]`, output range
`[0, 1]`, both sides clamped, evaluated inside the range. -/
lemma interpolate_ab (x a b : ℚ) (hab : a < b) (h1 : a ≤ x) (h2 : x ≤ b) :
    Remotion.interpolate x a b 0 1 true true = (x - a) / (b - a) := by
  unfold Remotion.interpolate
  rw [clampProgress_tt _ (by rw [not_lt]; exact div_nonneg (by linarith) (by linarith))
    (by rw [not_lt, div_le_one (by linarith)]; linarith)]
  ring

/- ===================== Entrance-animation evaluation lemmas ===================== -/

/-- Before its wordlet appears, an opening letter rests at the start
offset with opacity 0. -/
lemma openingLetter_pre {f : ℤ} {i : ℕ} (h : f < Comp.openingLetterAppearFrame i) :
    Comp.getOpeningLetterAnimation f i = ⟨Comp.WORD_START_OFFSET, 0⟩ := by
  unfold Comp.getOpeningLetterAnimation
  rw [if_pos h]

/-- From the end of its ease window on, an opening letter is settled. -/
lemma openingLetter_post {f : ℤ} {i : ℕ}
    (h : Comp.openingLetterAppearFrame i + Comp.EASE_DURATION ≤ f) :
    Comp.getOpeningLetterAnimation f i = ⟨0, 1⟩ := by
  have hd : (0 : ℤ) ≤ Comp.EASE_DURATION := by decide
  unfold Comp.getOpeningLetterAnimation
  rw [if_neg (by omega), if_pos (by omega)]

/-- Inside the ease window (endpoints included) the opening letter state
is the eased cubic-out offset at opacity 1. -/
lemma openingLetter_window {f : ℤ} {i : ℕ}
    (h1 : Comp.openingLetterAppearFrame i ≤ f)
    (h2 : f ≤ Comp.openingLetterAppearFrame i + Comp.EASE_DURATION) :
    Comp.getOpeningLetterAnimation f i =
      ⟨25 * (1 - ((f - Comp.openingLetterAppearFrame i : ℤ) : ℚ) / 5) ^ 3, 1⟩ := by
  have h5 : Comp.EASE_DURATION = (5 : ℤ) := rfl
  rw [h5] at h2
  unfold Comp.getOpeningLetterAnimation
  rw [if_neg (by omega)]
  by_cases hk : Comp.EASE_DURATION ≤ f - Comp.openingLetterAppearFrame i
  · rw [if_pos hk]
    rw [h5] at hk
    have he : f - Comp.openingLetterAppearFrame i = 5 := by omega
    rw [he]
    norm_num
  · rw [if_neg hk]
    rw [h5] at hk
    have hx5 : ((f - Comp.openingLetterAppearFrame i : ℤ) : ℚ) ≤ 5 := by
      exact_mod_cast (by omega : f - Comp.openingLetterAppearFrame i ≤ (5 : ℤ))
    rw [show ((Comp.EASE_DURATION : ℤ) : ℚ) = 5 from rfl,
      interpolate_unit _ _ (by norm_num) hx5]
    rw [show Comp.WORD_START_OFFSET = (25 : ℚ) from rfl]
    congr 1
    unfold Remotion.Easing.out Remotion.Easing.cubic
    ring

/-- The letter entrance of the part_000 first variant coincides with the
one of src/Composition.tsx (same constants, same boundaries, same code). -/
lemma v1_letter_eq (f : ℤ) (i : ℕ) :
    V1.getLetterEntranceAnimation f i = Comp.getOpeningLetterAnimation f i := rfl

/-- Appear frames of the two identical letter-entrance functions agree. -/
lemma v1_appear_eq (i : ℕ) : V1.letterAppearFrame i = Comp.openingLetterAppearFrame i := rfl

/-- Before its appear frame, a symbol-frame line rests at the whizz start
offset with opacity 0, for any easing. -/
lemma symbolLine_pre (bez : ℚ → ℚ) {f : ℤ} {i : ℕ} (h : f < Comp.symbolLineAppearFrame i) :
    Comp.getSymbolLineAnimation bez f i = ⟨Comp.SYMBOL_FRAME_START_OFFSET, 0⟩ := by
  unfold Comp.getSymbolLineAnimation
  rw [if_pos h]

/-- From the end of its whizz window on, a symbol-frame line is settled,
for any easing. -/
lemma symbolLine_post (bez : ℚ → ℚ) {f : ℤ} {i : ℕ}
    (h : Comp.symbolLineAppearFrame i + Comp.SYMBOL_FRAME_EASE_DURATION ≤ f) :
    Comp.getSymbolLineAnimation bez f i = ⟨0, 1⟩ := by
  have hd : (0 : ℤ) ≤ Comp.SYMBOL_FRAME_EASE_DURATION := by decide
  unfold Comp.getSymbolLineAnimation
  rw [if_neg (by omega), if_pos (by omega)]

/-- Before its appear frame, a wordlet of the suck-in variant rests at the
start offset with opacity 0. -/
lemma v2_wordlet_pre {f : ℤ} {i : ℕ} (h : f < V2.getWordletAppearFrame i) :
    V2.getWordletAnimation f i = ⟨V2.WORD_START_OFFSET, 0⟩ := by
  unfold V2.getWordletAnimation
  rw [if_pos h]

/-- From the end of its ease window on, a wordlet of the suck-in variant
is settled. -/
lemma v2_wordlet_post {f : ℤ} {i : ℕ}
    (h : V2.getWordletAppearFrame i + V2.EASE_DURATION ≤ f) :
    V2.getWordletAnimation f i = ⟨0, 1⟩ := by
  have hd : (0 : ℤ) ≤ V2.EASE_DURATION := by decide
  unfold V2.getWordletAnimation
  rw [if_neg (by omega), if_pos (by omega)]

/- ===================== Suck-in evaluation lemmas ===================== -/

/-- Before the suck-in window, every wordlet has the identity transform
and full opacity. -/
lemma suckIn_pre {f : ℤ} {i : ℕ} (h : f < V2.SUCK_IN_START) :
    V2.getTextSuckInAnimation f i = ⟨0, 0, 1, 1⟩ := by
  unfold V2.getTextSuckInAnimation
  rw [if_pos h]

/-- At and after the suck-in window end, every wordlet is fully hidden. -/
lemma suckIn_post {f : ℤ} {i : ℕ} (h : V2.SUCK_IN_END ≤ f) :
    V2.getTextSuckInAnimation f i = ⟨0, 0, 0, 0⟩ := by
  have hse : V2.SUCK_IN_START ≤ V2.SUCK_IN_END := by decide
  unfold V2.getTextSuckInAnimation
  rw [if_neg (by omega), if_pos h]

/-- Inside the suck-in window, the state is the quadratic ease-in blend
toward the wordlet's target. -/
lemma suckIn_mid {f : ℤ} {i : ℕ} (h1 : V2.SUCK_IN_START ≤ f) (h2 : f < V2.SUCK_IN_END) :
    V2.getTextSuckInAnimation f i =
      ⟨(V2.SUCK_IN_TARGETS i).1 * V2.suckEased f, (V2.SUCK_IN_TARGETS i).2 * V2.suckEased f,
        1 - V2.suckEased f, 1 - V2.suckEased f * (0.6 : ℚ)⟩ := by
  have hab : ((V2.SUCK_IN_START : ℤ) : ℚ) < ((V2.SUCK_IN_END : ℤ) : ℚ) := by
    exact_mod_cast (by decide : V2.SUCK_IN_START < V2.SUCK_IN_END)
  have hx1 : ((V2.SUCK_IN_START : ℤ) : ℚ) ≤ (f : ℚ) := by exact_mod_cast h1
  have hx2 : (f : ℚ) ≤ ((V2.SUCK_IN_END : ℤ) : ℚ) := by exact_mod_cast le_of_lt h2
  unfold V2.getTextSuckInAnimation
  rw [if_neg (by omega), if_neg (by omega)]
  rw [interpolate_ab _ _ _ hab hx1 hx2]
  rfl

/-- Inside the window the eased suck-in progress is nonnegative, below 1,
and strictly increasing in the frame. -/
lemma suckEased_facts {f1 f2 : ℤ} (h1 : V2.SUCK_IN_START ≤ f1) (h12 : f1 < f2)
    (h2 : f2 < V2.SUCK_IN_END) :
    0 ≤ V2.suckEased f1 ∧ V2.suckEased f1 < V2.suckEased f2 ∧ V2.suckEased f2 < 1 := by
  have hs : V2.SUCK_IN_START = (51 : ℤ) := rfl
  have he : V2.SUCK_IN_END = (63 : ℤ) := rfl
  rw [hs] at h1
  rw [he] at h2
  have c1 : (51 : ℚ) ≤ (f1 : ℚ) := by exact_mod_cast h1
  have c12 : (f1 : ℚ) < (f2 : ℚ) := by exact_mod_cast h12
  have c2 : (f2 : ℚ) < 63 := by exact_mod_cast h2
  unfold V2.suckEased Remotion.Easing.easeIn Remotion.Easing.quad
  rw [show ((V2.SUCK_IN_START : ℤ) : ℚ) = 51 from rfl, show ((V2.SUCK_IN_END : ℤ) : ℚ) = 63 from rfl]
  set p1 : ℚ := ((f1 : ℚ) - 51) / (63 - 51) with hp1
  set p2 : ℚ := ((f2 : ℚ) - 51) / (63 - 51) with hp2
  have hp1n : 0 ≤ p1 := by
    rw [hp1]
    apply div_nonneg (by linarith) (by norm_num)
  have hp12 : p1 < p2 := by
    rw [hp1, hp2]
    apply div_lt_div_of_pos_right (by linarith) (by norm_num)
  have hp2u : p2 < 1 := by
    rw [hp2, div_lt_one (by norm_num)]
    linarith
  refine ⟨mul_nonneg hp1n hp1n, mul_self_lt_mul_self hp1n hp12, ?_⟩
  have hp2n : 0 ≤ p2 := le_of_lt (lt_of_le_of_lt hp1n hp12)
  nlinarith [hp2u, hp2n]

/-- Shared monotone-offset fact for the cubic-out entrance window: at
integer frames inside `[A, A + 5]`, the absolute eased offset is
non-increasing. -/
lemma entrance_offset_mono {A f1 f2 : ℤ} (h1 : A ≤ f1) (h12 : f1 < f2) (h2 : f2 ≤ A + 5) :
    |25 * (1 - ((f2 - A : ℤ) : ℚ) / 5) ^ 3| ≤ |25 * (1 - ((f1 - A : ℤ) : ℚ) / 5) ^ 3| := by
  have hk1 : (0 : ℚ) ≤ ((f1 - A : ℤ) : ℚ) := by
    exact_mod_cast (by omega : (0 : ℤ) ≤ f1 - A)
  have hk12 : ((f1 - A : ℤ) : ℚ) ≤ ((f2 - A : ℤ) : ℚ) := by
    exact_mod_cast (by omega : f1 - A ≤ f2 - A)
  have hk2 : ((f2 - A : ℤ) : ℚ) ≤ 5 := by
    exact_mod_cast (by omega : f2 - A ≤ (5 : ℤ))
  set a : ℚ := ((f1 - A : ℤ) : ℚ)
  set b : ℚ := ((f2 - A : ℤ) : ℚ)
  have hqb : (0 : ℚ) ≤ 1 - b / 5 := by
    have : b / 5 ≤ 1 := (div_le_one (by norm_num)).mpr hk2
    linarith
  have hqq : 1 - b / 5 ≤ 1 - a / 5 := by
    have : a / 5 ≤ b / 5 := by apply div_le_div_of_nonneg_right hk12 (by norm_num)
    linarith
  have hqa : (0 : ℚ) ≤ 1 - a / 5 := le_trans hqb hqq
  rw [abs_of_nonneg (by positivity), abs_of_nonneg (by positivity)]
  have := pow_le_pow_left₀ hqb hqq 3
  linarith

/- ===================== Line-frame intersection and color helpers ===================== -/

/-- At perpendicular offset 0 and rotation 90°, the right-edge candidate of
the intersection helper degenerates (cos 90° = 0) and the sign-selected
bottom-edge candidate is the negative crossing −120, so no positive valid
candidate survives and the fixed fallback 150 is returned. -/
lemma lineFrameIntersectionAt90 : getLineFrameIntersection 0 90 120 120 = 150 := by
  have hrad : (90 : ℝ) * Real.pi / 180 = Real.pi / 2 := by ring
  simp only [getLineFrameIntersection, hrad, Real.cos_pi_div_two, Real.sin_pi_div_two]
  norm_num

/-- JavaScript Math.round of an integer value is that integer. -/
lemma jsRound_intCast (z : ℤ) : V3.jsRound (z : ℚ) = z := by
  unfold V3.jsRound
  rw [add_comm, Int.floor_add_int]
  norm_num

/-- A blended channel at progress 0 is the source channel, exactly. -/
lemma jsRound_blend_zero (x y : ℤ) : V3.jsRound ((x : ℚ) + ((y : ℚ) - (x : ℚ)) * 0) = x := by
  rw [mul_zero, add_zero]
  exact jsRound_intCast x

/-- A blended channel at progress 1 is the destination channel, exactly. -/
lemma jsRound_blend_one (x y : ℤ) : V3.jsRound ((x : ℚ) + ((y : ℚ) - (x : ℚ)) * 1) = y := by
  rw [show (x : ℚ) + ((y : ℚ) - (x : ℚ)) * 1 = (y : ℚ) by ring]
  exact jsRound_intCast y

/-- Opacity of the letter entrance: 0 strictly before the appear frame and
exactly 1 from it on, never a fractional value. -/
lemma opening_opacity (f : ℤ) (i : ℕ) :
    (Comp.getOpeningLetterAnimation f i).opacity =
      (if f < Comp.openingLetterAppearFrame i then 0 else 1) := by
  unfold Comp.getOpeningLetterAnimation
  by_cases h : f < Comp.openingLetterAppearFrame i
  · rw [if_pos h, if_pos h]
  · rw [if_neg h, if_neg h]
    by_cases h2 : Comp.EASE_DURATION ≤ f - Comp.openingLetterAppearFrame i
    · rw [if_pos h2]
    · rw [if_neg h2]

/- ===================== Claim theorems ===================== -/

/-- Claim C1: every per-element animation function is deterministic — for
every element and frame, evaluating the element's state twice (with the
same static configuration) yields bit-identical output.  In this embedding
each exposed function is a pure Lean function of the frame, the element
index and the static configuration (easing/spring parameters); there is no
state type and no cross-frame memory, so the double evaluation is
definitionally equal. -/
theorem C1_per_element_determinism :
    ∀ (f : ℤ) (i : ℕ) (bez : ℚ → ℚ) (springVal : ℤ → ℚ),
      Comp.getOpeningLetterAnimation f i = Comp.getOpeningLetterAnimation f i ∧
      Comp.getSymbolLineAnimation bez f i = Comp.getSymbolLineAnimation bez f i ∧
      V2.getTextSuckInAnimation f i = V2.getTextSuckInAnimation f i ∧
      Comp.symbolFrameHeight springVal f = Comp.symbolFrameHeight springVal f :=
  fun _ _ _ _ => ⟨rfl, rfl, rfl, rfl⟩

/-- Claim C2: for the cited entrance animations with window `[s, s + d)`,
every frame strictly before `s` (negative frames included) yields the
pre-entry rest state (fixed start offset, opacity 0), and every frame at or
after `s + d` yields the settled state (offset 0, opacity 1), exactly, with
no drift; the functions are total, so no frame raises an error. -/
theorem C2_entrance_boundary_clamping :
    ∀ (bez : ℚ → ℚ) (f : ℤ) (i : ℕ),
      (f < Comp.symbolLineAppearFrame i →
        Comp.getSymbolLineAnimation bez f i = ⟨Comp.SYMBOL_FRAME_START_OFFSET, 0⟩) ∧
      (Comp.symbolLineAppearFrame i + Comp.SYMBOL_FRAME_EASE_DURATION ≤ f →
        Comp.getSymbolLineAnimation bez f i = ⟨0, 1⟩) ∧
      (f < V2.getWordletAppearFrame i →
        V2.getWordletAnimation f i = ⟨V2.WORD_START_OFFSET, 0⟩) ∧
      (V2.getWordletAppearFrame i + V2.EASE_DURATION ≤ f →
        V2.getWordletAnimation f i = ⟨0, 1⟩) := by
  intro bez f i
  exact ⟨fun h => symbolLine_pre bez h, fun h => symbolLine_post bez h,
    fun h => v2_wordlet_pre h, fun h => v2_wordlet_post h⟩

/-- Witness for C2 at concrete frames: line 0 of the symbol frame rests at
offset 400 on frame 38 and is settled on frame 100; wordlet 0 rests at
offset 25 on frame 9 and is settled on frame 100. -/
theorem C2_entrance_boundary_clamping_witness :
    Comp.getSymbolLineAnimation id 38 0 = ⟨Comp.SYMBOL_FRAME_START_OFFSET, 0⟩ ∧
    Comp.getSymbolLineAnimation id 100 0 = ⟨0, 1⟩ ∧
    V2.getWordletAnimation 9 0 = ⟨V2.WORD_START_OFFSET, 0⟩ ∧
    V2.getWordletAnimation 100 0 = ⟨0, 1⟩ :=
  ⟨(C2_entrance_boundary_clamping id 38 0).1 (by decide),
   (C2_entrance_boundary_clamping id 100 0).2.1 (by decide),
   (C2_entrance_boundary_clamping id 9 0).2.2.1 (by decide),
   (C2_entrance_boundary_clamping id 100 0).2.2.2 (by decide)⟩

/-- Claim C3: with blankDuration = 10, stagger = 3, easeDuration = 5, the
element at index 0 has entrance window `[10, 15)`: opacity 0 at frame 9,
opacity 1 and offset 0 at frame 15 — for the opening letter at index 0
(wordlet 0) and for wordlet 0 of the suck-in variant. -/
theorem C3_index0_window_concrete :
    Comp.openingLetterAppearFrame 0 = 10 ∧
    Comp.openingLetterAppearFrame 0 + Comp.EASE_DURATION = 15 ∧
    (Comp.getOpeningLetterAnimation 9 0).opacity = 0 ∧
    (Comp.getOpeningLetterAnimation 15 0).opacity = 1 ∧
    (Comp.getOpeningLetterAnimation 15 0).yOffset = 0 ∧
    V2.getWordletAppearFrame 0 = 10 ∧
    V2.getWordletAppearFrame 0 + V2.EASE_DURATION = 15 ∧
    (V2.getWordletAnimation 9 0).opacity = 0 ∧
    (V2.getWordletAnimation 15 0).opacity = 1 ∧
    (V2.getWordletAnimation 15 0).yOffset = 0 := by
  decide

/-- Claim C4 counterexample: the line-rectangle intersection at
perpendicular offset 0 and rotation 90° against the 120 × 120 half-extent
rectangle does NOT return the claimed right-edge distance 120 plus the 2px
buffer (122); cos 90° = 0 kills the right-edge candidate and the selected
bottom-edge candidate is negative, so the fallback is returned. -/
theorem C4_intersection_at_90_counterexample :
    getLineFrameIntersection 0 90 120 120 ≠ 120 + 2 := by
  rw [lineFrameIntersectionAt90]
  norm_num

/-- Claim C4 amended: at offset 0 and rotation 90° against half-extents
120/120, the intersection helper finds no positive valid edge crossing and
returns the fixed fallback value 150. -/
theorem C4_intersection_at_90_amended :
    getLineFrameIntersection 0 90 120 120 = 150 :=
  lineFrameIntersectionAt90

/-- Claim C5 (code bug evaluation): the symbol-frame growth is NOT
triggered at frame 62 as the claim (and the code's own stale comments)
state: the derived constant `FRAME_GROW_START = GRID_ROTATE_START + 10`
evaluates to 71, and at frame 68 — where the claim expects the height to
have overshot past 320 — the height still equals the base value 240,
whatever the spring evaluator returns. -/
theorem C5_frame_grow_start_eval :
    ∀ springVal : ℤ → ℚ,
      Comp.FRAME_GROW_START = 71 ∧ Comp.FRAME_GROW_START ≠ 62 ∧
      Comp.symbolFrameHeight springVal 68 = Comp.SYMBOL_FRAME_HEIGHT ∧
      Comp.SYMBOL_FRAME_HEIGHT = 240 := by
  intro springVal
  refine ⟨by decide, by decide, ?_, rfl⟩
  unfold Comp.symbolFrameHeight
  rw [if_pos (by decide)]

/-- Claim C6 counterexample: the hex parser of src/colors.ts does not fall
back to white on a string that fails the hex pattern — on "zzzzzz" every
channel is NaN (none), not 255. -/
theorem C6_colors_ts_no_white_fallback_counterexample :
    V3.hexMatch "zzzzzz" = none ∧ ColorsTs.hexToRgb "zzzzzz" = ⟨none, none, none⟩ ∧
    (⟨none, none, none⟩ : RgbJs) ≠ ⟨some 255, some 255, some 255⟩ := by
  decide

/-- Claim C6 amended: the regex-based hex parser (the `hexToRgb` of the
part_001 variant) returns the fixed fallback white (255, 255, 255) on
every input string its hex pattern cannot match, and being a total
function it never throws; the `hexToRgb` of src/colors.ts performs no
pattern check and yields NaN channels on malformed input instead. -/
theorem C6_regex_parser_white_fallback :
    ∀ s : String, V3.hexMatch s = none → V3.hexToRgb s = ⟨255, 255, 255⟩ := by
  intro s h
  unfold V3.hexToRgb
  rw [h]

/-- Witness for C6 at a concrete non-hex string. -/
theorem C6_regex_parser_white_fallback_witness :
    V3.hexMatch "oops" = none ∧ V3.hexToRgb "oops" = ⟨255, 255, 255⟩ :=
  ⟨by decide, C6_regex_parser_white_fallback "oops" (by decide)⟩

/-- Claim C7: the RGB blend (each channel `round(from + (to - from) * p)`)
returns the first color channel-exactly at progress 0 and the second at
progress 1, for all colors; and blending black (0,0,0) toward ivoryMist
(253,246,227) at progress 1/2 gives (127, 123, 114) with JavaScript
half-up rounding. -/
theorem C7_color_blend_round_trip :
    (∀ a b : Rgb, V3.interpolateColorRgb a b 0 = a ∧ V3.interpolateColorRgb a b 1 = b) ∧
    V3.interpolateColorRgb ⟨0, 0, 0⟩ ⟨253, 246, 227⟩ (1 / 2) = ⟨127, 123, 114⟩ := by
  constructor
  · intro a b
    constructor
    · unfold V3.interpolateColorRgb
      rw [jsRound_blend_zero, jsRound_blend_zero, jsRound_blend_zero]
    · unfold V3.interpolateColorRgb
      rw [jsRound_blend_one, jsRound_blend_one, jsRound_blend_one]
  · norm_num [V3.interpolateColorRgb, V3.jsRound, Rgb.mk.injEq, Int.floor_eq_iff]

/-- Claim C8: over the ease-out entrance window `[s, s + easeDuration]` of
the cited letter-entrance functions, opacity is non-decreasing and the
absolute offset is non-increasing between any two frames of the window. -/
theorem C8_easeout_monotonicity :
    ∀ (i : ℕ) (f1 f2 : ℤ),
      Comp.openingLetterAppearFrame i ≤ f1 → f1 < f2 →
      f2 ≤ Comp.openingLetterAppearFrame i + Comp.EASE_DURATION →
      ((Comp.getOpeningLetterAnimation f1 i).opacity ≤
          (Comp.getOpeningLetterAnimation f2 i).opacity ∧
        |(Comp.getOpeningLetterAnimation f2 i).yOffset| ≤
          |(Comp.getOpeningLetterAnimation f1 i).yOffset|) ∧
      ((V1.getLetterEntranceAnimation f1 i).opacity ≤
          (V1.getLetterEntranceAnimation f2 i).opacity ∧
        |(V1.getLetterEntranceAnimation f2 i).yOffset| ≤
          |(V1.getLetterEntranceAnimation f1 i).yOffset|) := by
  intro i f1 f2 h1 h12 h2
  have h5 : Comp.EASE_DURATION = (5 : ℤ) := rfl
  have h2' : f2 ≤ Comp.openingLetterAppearFrame i + 5 := by omega
  have e1 := @openingLetter_window f1 i h1 (by omega)
  have e2 := @openingLetter_window f2 i (by omega) h2
  have mono := @entrance_offset_mono (Comp.openingLetterAppearFrame i) f1 f2 h1 h12 h2'
  refine ⟨⟨?_, ?_⟩, ?_, ?_⟩
  · rw [e1, e2]
  · rw [e1, e2]
    exact mono
  · rw [v1_letter_eq, v1_letter_eq, e1, e2]
  · rw [v1_letter_eq, v1_letter_eq, e1, e2]
    exact mono

/-- Witness for C8 at wordlet 0's window `[10, 15]`, frames 11 < 13. -/
theorem C8_easeout_monotonicity_witness :
    Comp.openingLetterAppearFrame 0 ≤ 11 ∧ (11 : ℤ) < 13 ∧
    (13 : ℤ) ≤ Comp.openingLetterAppearFrame 0 + Comp.EASE_DURATION ∧
    ((Comp.getOpeningLetterAnimation 11 0).opacity ≤
        (Comp.getOpeningLetterAnimation 13 0).opacity ∧
      |(Comp.getOpeningLetterAnimation 13 0).yOffset| ≤
        |(Comp.getOpeningLetterAnimation 11 0).yOffset|) ∧
    ((V1.getLetterEntranceAnimation 11 0).opacity ≤
        (V1.getLetterEntranceAnimation 13 0).opacity ∧
      |(V1.getLetterEntranceAnimation 13 0).yOffset| ≤
        |(V1.getLetterEntranceAnimation 11 0).yOffset|) :=
  ⟨by decide, by decide, by decide,
   (C8_easeout_monotonicity 0 11 13 (by decide) (by decide) (by decide)).1,
   (C8_easeout_monotonicity 0 11 13 (by decide) (by decide) (by decide)).2⟩

/-- Claim C9: the text suck-in exit — before the window every wordlet has
full opacity and the identity transform; inside the window the state is
the quadratic ease-in blend toward the wordlet's own target (opacity
strictly decreasing, scale strictly shrinking, distance to the target
non-increasing); at and after the window end opacity is exactly 0 and the
renderer's visibility gate stops painting the text; and the per-element
targets differ between the left-side wordlets (indices 0-3, pulled upward)
and the right-side wordlets (indices 4-8, pulled downward). -/
theorem C9_suck_in_behavior :
    ∀ (f f1 f2 : ℤ) (i : ℕ),
      (f < V2.SUCK_IN_START → V2.getTextSuckInAnimation f i = ⟨0, 0, 1, 1⟩) ∧
      (V2.SUCK_IN_START ≤ f → f < V2.SUCK_IN_END →
        V2.getTextSuckInAnimation f i =
          ⟨(V2.SUCK_IN_TARGETS i).1 * V2.suckEased f, (V2.SUCK_IN_TARGETS i).2 * V2.suckEased f,
            1 - V2.suckEased f, 1 - V2.suckEased f * (0.6 : ℚ)⟩) ∧
      (V2.SUCK_IN_START ≤ f1 → f1 < f2 → f2 < V2.SUCK_IN_END →
        (V2.getTextSuckInAnimation f2 i).opacity < (V2.getTextSuckInAnimation f1 i).opacity ∧
        (V2.getTextSuckInAnimation f2 i).scale < (V2.getTextSuckInAnimation f1 i).scale ∧
        |(V2.SUCK_IN_TARGETS i).1 - (V2.getTextSuckInAnimation f2 i).xOffset| ≤
          |(V2.SUCK_IN_TARGETS i).1 - (V2.getTextSuckInAnimation f1 i).xOffset| ∧
        |(V2.SUCK_IN_TARGETS i).2 - (V2.getTextSuckInAnimation f2 i).yOffset| ≤
          |(V2.SUCK_IN_TARGETS i).2 - (V2.getTextSuckInAnimation f1 i).yOffset|) ∧
      (V2.SUCK_IN_END ≤ f →
        (V2.getTextSuckInAnimation f i).opacity = 0 ∧ V2.textVisible f = false) ∧
      ((V2.SUCK_IN_TARGETS 0).2 < 0 ∧ (V2.SUCK_IN_TARGETS 1).2 < 0 ∧
        (V2.SUCK_IN_TARGETS 2).2 < 0 ∧ (V2.SUCK_IN_TARGETS 3).2 < 0 ∧
        0 < (V2.SUCK_IN_TARGETS 4).2 ∧ 0 < (V2.SUCK_IN_TARGETS 5).2 ∧
        0 < (V2.SUCK_IN_TARGETS 6).2 ∧ 0 < (V2.SUCK_IN_TARGETS 7).2 ∧
        0 < (V2.SUCK_IN_TARGETS 8).2) := by
  intro f f1 f2 i
  refine ⟨fun h => suckIn_pre h, fun ha hb => suckIn_mid ha hb, ?_, fun h => ?_, by decide⟩
  · intro h1 h12 h2
    obtain ⟨hn, hlt, hu⟩ := suckEased_facts h1 h12 h2
    have hn2 : 0 ≤ V2.suckEased f2 := le_of_lt (lt_of_le_of_lt hn hlt)
    have m1 := @suckIn_mid f1 i h1 (lt_trans h12 h2)
    have m2 := @suckIn_mid f2 i (le_trans h1 (le_of_lt h12)) h2
    rw [m1, m2]
    have hd : ∀ t e : ℚ, t - t * e = t * (1 - e) := fun t e => by ring
    refine ⟨?_, ?_, ?_, ?_⟩
    · show 1 - V2.suckEased f2 < 1 - V2.suckEased f1
      linarith
    · show 1 - V2.suckEased f2 * (0.6 : ℚ) < 1 - V2.suckEased f1 * (0.6 : ℚ)
      have h06 : V2.suckEased f1 * (0.6 : ℚ) < V2.suckEased f2 * (0.6 : ℚ) := by
        apply mul_lt_mul_of_pos_right hlt
        norm_num
      linarith
    · show |(V2.SUCK_IN_TARGETS i).1 - (V2.SUCK_IN_TARGETS i).1 * V2.suckEased f2| ≤
        |(V2.SUCK_IN_TARGETS i).1 - (V2.SUCK_IN_TARGETS i).1 * V2.suckEased f1|
      rw [hd, hd, abs_mul, abs_mul]
      apply mul_le_mul_of_nonneg_left _ (abs_nonneg _)
      rw [abs_of_nonneg (by linarith), abs_of_nonneg (by linarith)]
      linarith
    · show |(V2.SUCK_IN_TARGETS i).2 - (V2.SUCK_IN_TARGETS i).2 * V2.suckEased f2| ≤
        |(V2.SUCK_IN_TARGETS i).2 - (V2.SUCK_IN_TARGETS i).2 * V2.suckEased f1|
      rw [hd, hd, abs_mul, abs_mul]
      apply mul_le_mul_of_nonneg_left _ (abs_nonneg _)
      rw [abs_of_nonneg (by linarith), abs_of_nonneg (by linarith)]
      linarith
  · refine ⟨?_, ?_⟩
    · rw [suckIn_post h]
    · unfold V2.textVisible
      exact decide_eq_false (not_lt.mpr h)

/-- Witness for C9 at concrete frames: identity state at frame 40, strict
opacity decrease between frames 53 and 57 for wordlet 2, and the hidden
state with the renderer gate closed at frame 70. -/
theorem C9_suck_in_behavior_witness :
    V2.getTextSuckInAnimation 40 0 = ⟨0, 0, 1, 1⟩ ∧
    (V2.getTextSuckInAnimation 57 2).opacity < (V2.getTextSuckInAnimation 53 2).opacity ∧
    (V2.getTextSuckInAnimation 70 1).opacity = 0 ∧ V2.textVisible 70 = false :=
  ⟨(C9_suck_in_behavior 40 0 0 0).1 (by decide),
   ((C9_suck_in_behavior 0 53 57 2).2.2.1 (by decide) (by decide) (by decide)).1,
   ((C9_suck_in_behavior 70 0 0 1).2.2.2.1 (by decide)).1,
   ((C9_suck_in_behavior 70 0 0 1).2.2.2.1 (by decide)).2⟩

/-- Claim C10: the opacity returned by the cited letter-entrance functions
is exactly 0 strictly before the letter's appear frame and exactly 1 from
the appear frame onward — also throughout the easing window, where only
the y-offset is eased — hence always exactly 0 or exactly 1. -/
theorem C10_letter_opacity_binary :
    ∀ (f : ℤ) (i : ℕ),
      (Comp.getOpeningLetterAnimation f i).opacity =
        (if f < Comp.openingLetterAppearFrame i then 0 else 1) ∧
      (V1.getLetterEntranceAnimation f i).opacity =
        (if f < V1.letterAppearFrame i then 0 else 1) := by
  intro f i
  refine ⟨opening_opacity f i, ?_⟩
  rw [v1_letter_eq, v1_appear_eq]
  exact opening_opacity f i
